import Mathlib

/-!
Shallow embedding of the gesture-control backend (src/backend/main.py and
src/backend/config.py) and proofs about its specification claims.

Python floats are modelled as exact rationals (ℚ); Python strings as `String`;
`Optional[x]` as `Option`; SQLite NULL-producing aggregates as `Option ℚ`.
Truthiness of Python values (`x or d`, `v if v else 0.0`) is modelled
explicitly: `None`, `0.0` and `""` are falsy.
-/

namespace GestureControl

/-- Python `s or d` for strings: the empty string is falsy. -/
def pyOrStr (s d : String) : String := if s = "" then d else s

/-- Python `s.upper()` on the ASCII labels this system uses. -/
def strUpper (s : String) : String := ⟨s.data.map Char.toUpper⟩

/-- Python `o or d` for an optional string (`str(ev.session_id or "default")`). -/
def pyOrOptStr (o : Option String) (d : String) : String :=
  match o with
  | none => d
  | some s => if s = "" then d else s

/-- Python `float(o or d)` for an optional float (`float(ev.response_time or 0.0)`). -/
def pyOrOptQ (o : Option ℚ) (d : ℚ) : ℚ :=
  match o with
  | none => d
  | some v => if v = 0 then d else v

/-- Python `float(r) if r else 0.0` applied to a SQL aggregate result
(`None` and `0.0` are both falsy and give `0.0`). -/
def pyFalsyFloat (o : Option ℚ) : ℚ :=
  match o with
  | none => 0
  | some v => if v = 0 then 0 else v

/-- SQL `AVG` over a selected column: `NULL` on the empty selection. -/
def listAvg (xs : List ℚ) : Option ℚ :=
  if xs.isEmpty then none else some (xs.sum / xs.length)

/-- SQL `MIN` over a selected column: `NULL` on the empty selection. -/
def listMin : List ℚ → Option ℚ
  | [] => none
  | x :: xs =>
    match listMin xs with
    | none => some x
    | some m => some (min x m)

/-- SQL `MAX` over a selected column: `NULL` on the empty selection. -/
def listMax : List ℚ → Option ℚ
  | [] => none
  | x :: xs =>
    match listMax xs with
    | none => some x
    | some m => some (max x m)

/-- Python `round(q)` to an integer on exact rationals: nearest, ties to even. -/
def roundHalfEven (q : ℚ) : ℤ :=
  let f : ℤ := ⌊q⌋
  let r : ℚ := q - f
  if r < 1/2 then f
  else if 1/2 < r then f + 1
  else if f % 2 = 0 then f else f + 1

/-- Python `round(q, 2)` on exact rationals. -/
def round2 (q : ℚ) : ℚ := (roundHalfEven (100 * q) : ℚ) / 100

/-- SQLite `CAST(q AS INTEGER)` and Python `int(q)`: truncation toward zero. -/
def intTrunc (q : ℚ) : ℤ := if 0 ≤ q then ⌊q⌋ else ⌈q⌉

/-- Python `dict.get(k, d)` on an association list (keys are unique in every
dictionary we build, so first-match lookup coincides with dict lookup). -/
def dictGet (m : List (String × String)) (k d : String) : String :=
  match m.lookup k with
  | some v => v
  | none => d

/-! ## config.py -/

/-- `Settings.default_gesture_mapping` from src/backend/config.py. -/
def default_gesture_mapping : List (String × String) :=
  [("THUMBS_UP", "GOOD"),
   ("SIX", "SIX_GESTURE"),
   ("PALM", "OPEN_HAND"),
   ("FIST", "CLOSED_HAND"),
   ("POINT", "POINT_FORWARD"),
   ("V", "VICTORY"),
   ("OK", "OK_SIGN"),
   ("UNKNOWN", "NO_GESTURE")]

/-- `RuntimeConfig` from src/backend/config.py (runtime-mutable configuration). -/
structure RuntimeConfig where
  debounce_sec : ℚ
  mapping : List (String × String)
  enabled : Bool
deriving Repr, DecidableEq

/-- `RuntimeConfig.__init__`: debounce defaults to `settings.debounce_sec = 0.5`,
mapping to a copy of the default table. -/
def RuntimeConfig.init : RuntimeConfig :=
  { debounce_sec := 1/2, mapping := default_gesture_mapping, enabled := true }

/-- `RuntimeConfig.update_debounce`: store the value only when it lies in
`[0.1, 2.0]`; otherwise do nothing (no error is raised, nothing is returned). -/
def RuntimeConfig.update_debounce (c : RuntimeConfig) (value : ℚ) : RuntimeConfig :=
  if 1/10 ≤ value ∧ value ≤ 2 then { c with debounce_sec := value } else c

/-! ## main.py data model and state -/

/-- `GestureEvent` (pydantic model) from src/backend/main.py: the ingestion
payload. It has no `is_correct` field. -/
structure GestureEvent where
  gesture : String
  score : ℚ
  ts : Option ℚ
  session_id : Option String
  response_time : Option ℚ
deriving Repr, DecidableEq

/-- A row of the `logs` table as written by `_insert_log_sync`. -/
structure LogRow where
  time : ℚ
  gesture : String
  command : String
  score : ℚ
  response_time : ℚ
  session_id : String
  is_correct : ℤ
deriving Repr, DecidableEq

/-- `AppState` from src/backend/main.py (the process-wide mutable state that
the ingestion path reads and writes). `last_trigger` is split into its two
dictionary entries. -/
structure AppState where
  mode : String
  last_gesture : String
  last_command : String
  updated_at : ℚ
  last_trigger_gesture : Option String
  last_trigger_t : ℚ
  total_requests : ℕ
  error_count : ℕ
deriving Repr, DecidableEq

/-- `AppState.__init__` (at wall-clock time `t0`). -/
def AppState.init (t0 : ℚ) : AppState :=
  { mode := "IDLE", last_gesture := "-", last_command := "-", updated_at := t0,
    last_trigger_gesture := none, last_trigger_t := 0,
    total_requests := 0, error_count := 0 }

/-- `AppState.update_gesture` (called with the wall-clock time `wallNow` that
`time.time()` returns inside it). -/
def AppState.update_gesture (st : AppState) (gesture command : String) (wallNow : ℚ) : AppState :=
  { st with last_gesture := gesture, last_command := command,
            updated_at := wallNow, total_requests := st.total_requests + 1 }

/-- `AppState.update_mode`: `START` forces `RUNNING`, `STOP` forces `STOPPED`,
every other command leaves the mode unchanged. -/
def AppState.update_mode (st : AppState) (command : String) : AppState :=
  if command = "START" then { st with mode := "RUNNING" }
  else if command = "STOP" then { st with mode := "STOPPED" }
  else st

/-- Folding `update_mode` over a sequence of commands. -/
def applyCommands (st : AppState) (cmds : List String) : AppState :=
  cmds.foldl AppState.update_mode st

/-! ## main.py ingestion endpoint -/

/-- Gesture normalization in `post_gesture`: `(ev.gesture or "UNKNOWN").upper()`. -/
def normalizeGesture (g : String) : String := strUpper (pyOrStr g "UNKNOWN")

/-- The result of one `POST /api/gesture/event` call: the JSON response fields
plus the post-call `AppState` and the log row handed to the background task
(`none` when no write is scheduled). -/
structure PostResult where
  accepted : Bool
  reason : Option String
  command : String
  state : AppState
  logWrite : Option LogRow
deriving Repr, DecidableEq

/-- `post_gesture` from src/backend/main.py, at ingestion wall-clock time `now`
(the value of `time.time()` at the top of the handler). Note that the event's
optional `ts` field is never read: the debounce check, the recorded trigger
time and the logged row time all use `now`. -/
def postGesture (cfg : RuntimeConfig) (st : AppState) (ev : GestureEvent) (now : ℚ) : PostResult :=
  let gesture := normalizeGesture ev.gesture
  let command := dictGet cfg.mapping gesture "NONE"
  if st.last_trigger_gesture = some gesture ∧ now - st.last_trigger_t < cfg.debounce_sec then
    { accepted := false, reason := some "debounced", command := command,
      state := st, logWrite := none }
  else
    let st1 := { st with last_trigger_gesture := some gesture, last_trigger_t := now }
    let st2 := st1.update_mode command
    let st3 := st2.update_gesture gesture command now
    { accepted := true, reason := none, command := command, state := st3,
      logWrite := some { time := now, gesture := gesture, command := command,
                         score := ev.score,
                         response_time := pyOrOptQ ev.response_time 0,
                         session_id := pyOrOptStr ev.session_id "default",
                         is_correct := 1 } }

/-- Iterating `post_gesture` over a sequence of (event, ingestion-time) pairs,
returning the list of `accepted` flags. -/
def runFlags (cfg : RuntimeConfig) : AppState → List (GestureEvent × ℚ) → List Bool
  | _, [] => []
  | st, (ev, now) :: rest =>
    let r := postGesture cfg st ev now
    r.accepted :: runFlags cfg r.state rest

/-- Iterating `post_gesture` over a sequence, returning the final state. -/
def runState (cfg : RuntimeConfig) : AppState → List (GestureEvent × ℚ) → AppState
  | st, [] => st
  | st, (ev, now) :: rest => runState cfg (postGesture cfg st ev now).state rest

/-- Modelled from the spec (claim side of the refinement): the debounce policy
as the spec states it, on a stream of (normalized gesture, time) pairs. An
event is rejected exactly when its gesture equals the gesture of the most
recently accepted event and its time is strictly less than `w` after that
event's time; every accepted event becomes the new "most recently accepted"
pair, and rejections leave it unchanged. -/
def specDebounce (w : ℚ) : Option (String × ℚ) → List (String × ℚ) → List Bool
  | _, [] => []
  | last, (g, t) :: rest =>
    match last with
    | none => true :: specDebounce w (some (g, t)) rest
    | some (g0, t0) =>
      if g = g0 ∧ t - t0 < w then
        false :: specDebounce w (some (g0, t0)) rest
      else
        true :: specDebounce w (some (g, t)) rest

/-- The (gesture, time) pair held by the debounce filter inside an `AppState`. -/
def AppState.trigger (st : AppState) : Option (String × ℚ) :=
  match st.last_trigger_gesture with
  | none => none
  | some g => some (g, st.last_trigger_t)

/-! ## Basic lemmas about the ingestion step -/

@[simp]
lemma AppState.update_mode_last_trigger_gesture (st : AppState) (c : String) :
    (st.update_mode c).last_trigger_gesture = st.last_trigger_gesture := by
  unfold AppState.update_mode
  split
  · rfl
  · split <;> rfl

@[simp]
lemma AppState.update_mode_last_trigger_t (st : AppState) (c : String) :
    (st.update_mode c).last_trigger_t = st.last_trigger_t := by
  unfold AppState.update_mode
  split
  · rfl
  · split <;> rfl

@[simp]
lemma AppState.update_gesture_last_trigger_gesture (st : AppState) (g c : String) (w : ℚ) :
    (st.update_gesture g c w).last_trigger_gesture = st.last_trigger_gesture := rfl

@[simp]
lemma AppState.update_gesture_last_trigger_t (st : AppState) (g c : String) (w : ℚ) :
    (st.update_gesture g c w).last_trigger_t = st.last_trigger_t := rfl

/-- The rejection condition of `post_gesture`, extensionally. -/
lemma postGesture_accepted_false_iff (cfg : RuntimeConfig) (st : AppState)
    (ev : GestureEvent) (now : ℚ) :
    (postGesture cfg st ev now).accepted = false ↔
      (st.last_trigger_gesture = some (normalizeGesture ev.gesture) ∧
        now - st.last_trigger_t < cfg.debounce_sec) := by
  unfold postGesture
  by_cases h : st.last_trigger_gesture = some (normalizeGesture ev.gesture) ∧
      now - st.last_trigger_t < cfg.debounce_sec
  · rw [if_pos h]
    simpa using h
  · rw [if_neg h]
    simpa using h

/-- A rejected request leaves the whole application state untouched and
schedules no log write. -/
lemma postGesture_rejected_eq (cfg : RuntimeConfig) (st : AppState)
    (ev : GestureEvent) (now : ℚ)
    (h : st.last_trigger_gesture = some (normalizeGesture ev.gesture) ∧
          now - st.last_trigger_t < cfg.debounce_sec) :
    postGesture cfg st ev now =
      { accepted := false, reason := some "debounced",
        command := dictGet cfg.mapping (normalizeGesture ev.gesture) "NONE",
        state := st, logWrite := none } := by
  unfold postGesture
  rw [if_pos h]

/-- An accepted request records the new `(gesture, now)` debounce pair. -/
lemma postGesture_accepted_trigger (cfg : RuntimeConfig) (st : AppState)
    (ev : GestureEvent) (now : ℚ)
    (h : ¬(st.last_trigger_gesture = some (normalizeGesture ev.gesture) ∧
            now - st.last_trigger_t < cfg.debounce_sec)) :
    (postGesture cfg st ev now).accepted = true ∧
      (postGesture cfg st ev now).state.trigger =
        some (normalizeGesture ev.gesture, now) := by
  unfold postGesture
  rw [if_neg h]
  refine ⟨rfl, ?_⟩
  simp [AppState.trigger]

/-- The resolved command does not depend on the debounce decision. -/
lemma postGesture_command (cfg : RuntimeConfig) (st : AppState)
    (ev : GestureEvent) (now : ℚ) :
    (postGesture cfg st ev now).command =
      dictGet cfg.mapping (normalizeGesture ev.gesture) "NONE" := by
  unfold postGesture
  by_cases h : st.last_trigger_gesture = some (normalizeGesture ev.gesture) ∧
      now - st.last_trigger_t < cfg.debounce_sec
  · rw [if_pos h]
  · rw [if_neg h]

/-- The accepted-flag trace of the implementation equals the spec-side
debounce policy, for an arbitrary starting state. -/
lemma runFlags_eq_specDebounce (cfg : RuntimeConfig) (evs : List (GestureEvent × ℚ)) :
    ∀ st : AppState,
      runFlags cfg st evs
        = specDebounce cfg.debounce_sec st.trigger
            (evs.map (fun p => (normalizeGesture p.1.gesture, p.2))) := by
  induction evs with
  | nil => intro st; rfl
  | cons p rest ih =>
    intro st
    obtain ⟨ev, now⟩ := p
    show (postGesture cfg st ev now).accepted :: runFlags cfg (postGesture cfg st ev now).state rest
        = specDebounce cfg.debounce_sec st.trigger
            ((normalizeGesture ev.gesture, now) ::
              rest.map (fun p => (normalizeGesture p.1.gesture, p.2)))
    by_cases hrej : st.last_trigger_gesture = some (normalizeGesture ev.gesture) ∧
        now - st.last_trigger_t < cfg.debounce_sec
    · -- rejected: state unchanged, spec also rejects and keeps its pair
      rw [postGesture_rejected_eq cfg st ev now hrej]
      obtain ⟨hg, ht⟩ := hrej
      have hst : st.trigger = some (normalizeGesture ev.gesture, st.last_trigger_t) := by
        simp [AppState.trigger, hg]
      rw [hst, ih st, hst]
      simp [specDebounce, ht]
    · -- accepted: spec also accepts; both sides continue from (gesture, now)
      obtain ⟨hacc, htrig⟩ := postGesture_accepted_trigger cfg st ev now hrej
      rw [hacc, ih ((postGesture cfg st ev now).state), htrig]
      rcases hg : st.last_trigger_gesture with _ | g0
      · have hst : st.trigger = none := by simp [AppState.trigger, hg]
        rw [hst]
        simp [specDebounce]
      · have hst : st.trigger = some (g0, st.last_trigger_t) := by
          simp [AppState.trigger, hg]
        rw [hst]
        have hcond : ¬(normalizeGesture ev.gesture = g0 ∧
            now - st.last_trigger_t < cfg.debounce_sec) := by
          intro hc
          exact hrej ⟨by rw [hg, hc.1], hc.2⟩
        simp [specDebounce, hcond]

/-- C1 (confirmed). Debounce correctness: starting from the initial state (no
prior accepted event), the sequence of accept/reject decisions produced by the
ingestion endpoint on any sequence of events is exactly the spec policy: an
event is rejected iff its normalized gesture equals the gesture of the most
recently accepted event and its time is strictly less than the configured
window after that accepted event's time; every other event (different gesture,
elapsed time ≥ window, or no prior accepted event) is accepted, and rejections
never update the remembered accepted pair. -/
theorem debounce_correctness (cfg : RuntimeConfig) (t0 : ℚ)
    (evs : List (GestureEvent × ℚ)) :
    runFlags cfg (AppState.init t0) evs
      = specDebounce cfg.debounce_sec none
          (evs.map (fun p => (normalizeGesture p.1.gesture, p.2))) := by
  have h := runFlags_eq_specDebounce cfg evs (AppState.init t0)
  simpa [AppState.trigger, AppState.init] using h

/-! ## C2: what a rejected request does (and does not) change -/

/-- A state with a previously accepted PALM trigger at time 100 and five
requests already counted. -/
def exState2 : AppState :=
  { mode := "RUNNING", last_gesture := "PALM", last_command := "OPEN_HAND",
    updated_at := 100, last_trigger_gesture := some "PALM", last_trigger_t := 100,
    total_requests := 5, error_count := 0 }

/-- A PALM event arriving again shortly after. -/
def exEvent2 : GestureEvent :=
  { gesture := "PALM", score := 9/10, ts := none, session_id := none,
    response_time := none }

/-- C2 (counterexample). The claim says a generic request counter is still
incremented on a debounced rejection. At this concrete rejected request
(PALM again 0.2 s after the accepted PALM, window 0.5 s) the request is
rejected and `total_requests` stays at 5 — no counter is incremented, so the
claim as stated is false. -/
theorem rejection_counter_counterexample :
    (postGesture RuntimeConfig.init exState2 exEvent2 (501/5)).accepted = false ∧
    (postGesture RuntimeConfig.init exState2 exEvent2 (501/5)).state.total_requests
      = exState2.total_requests := by
  rw [postGesture_rejected_eq RuntimeConfig.init exState2 exEvent2 (501/5)
        ⟨by decide, by show (501/5 : ℚ) - 100 < 1/2; norm_num⟩]
  exact ⟨rfl, rfl⟩

/-- C2 (amended, proved). For every ingested event the debounce filter
rejects, the response carries `accepted = false`, `reason = "debounced"`, the
command resolved from the current mapping, and the current unchanged state
snapshot; no log row is written, and the whole in-memory state — mode,
last_gesture, last_command, debounce state, and also the total request counter
— is unchanged (`total_requests` counts accepted requests only; nothing is
incremented on a rejection). -/
theorem rejection_frame_no_counter (cfg : RuntimeConfig) (st : AppState)
    (ev : GestureEvent) (now : ℚ)
    (h : (postGesture cfg st ev now).accepted = false) :
    (postGesture cfg st ev now).reason = some "debounced" ∧
    (postGesture cfg st ev now).command
      = dictGet cfg.mapping (normalizeGesture ev.gesture) "NONE" ∧
    (postGesture cfg st ev now).state = st ∧
    (postGesture cfg st ev now).state.total_requests = st.total_requests ∧
    (postGesture cfg st ev now).logWrite = none := by
  have hc := (postGesture_accepted_false_iff cfg st ev now).mp h
  rw [postGesture_rejected_eq cfg st ev now hc]
  exact ⟨rfl, rfl, rfl, rfl, rfl⟩

/-- Closed instance of the C2 amended theorem at a concrete rejected request. -/
theorem rejection_frame_no_counter_witness :
    (postGesture RuntimeConfig.init exState2 exEvent2 (501/5)).reason = some "debounced" ∧
    (postGesture RuntimeConfig.init exState2 exEvent2 (501/5)).command
      = dictGet RuntimeConfig.init.mapping (normalizeGesture exEvent2.gesture) "NONE" ∧
    (postGesture RuntimeConfig.init exState2 exEvent2 (501/5)).state = exState2 ∧
    (postGesture RuntimeConfig.init exState2 exEvent2 (501/5)).state.total_requests
      = exState2.total_requests ∧
    (postGesture RuntimeConfig.init exState2 exEvent2 (501/5)).logWrite = none :=
  rejection_frame_no_counter RuntimeConfig.init exState2 exEvent2 (501/5)
    ((postGesture_accepted_false_iff RuntimeConfig.init exState2 exEvent2 (501/5)).mpr
      ⟨by decide, by show (501/5 : ℚ) - 100 < 1/2; norm_num⟩)

/-! ## C3: the event-supplied timestamp and the debounce decision -/

/-- A state with a previously accepted PALM trigger at time 100. -/
def exState3 : AppState :=
  { mode := "RUNNING", last_gesture := "PALM", last_command := "OPEN_HAND",
    updated_at := 100, last_trigger_gesture := some "PALM", last_trigger_t := 100,
    total_requests := 1, error_count := 0 }

/-- A PALM event that supplies event time 200 (100 s after the accepted one,
far beyond any admissible window). -/
def exEvent3 : GestureEvent :=
  { gesture := "PALM", score := 9/10, ts := some 200, session_id := none,
    response_time := none }

/-- C3 (counterexample). The claim says that when the caller supplies a
timestamp, the debounce decision is evaluated against that supplied event
time. Here the supplied event time is 200, which is 100 s ≥ window after the
last accepted PALM at 100, so the claim predicts acceptance; but the code
evaluates the debounce against the ingestion time 100.2 (0.2 s < 0.5 s window)
and rejects the event. -/
theorem event_time_debounce_counterexample :
    (postGesture RuntimeConfig.init exState3 exEvent3 (501/5)).accepted = false := by
  rw [postGesture_rejected_eq RuntimeConfig.init exState3 exEvent3 (501/5)
        ⟨by decide, by show (501/5 : ℚ) - 100 < 1/2; norm_num⟩]

/-- C3 (amended, proved). The debounce decision — indeed the entire result of
the ingestion endpoint — is evaluated against the ingestion (wall-clock) time
only; the event's optional `ts` field is never read, so the result is
identical for any two supplied timestamps (and for a missing one). -/
theorem debounce_ignores_event_time (cfg : RuntimeConfig) (st : AppState)
    (ev : GestureEvent) (now : ℚ) (t1 t2 : Option ℚ) :
    postGesture cfg st { ev with ts := t1 } now
      = postGesture cfg st { ev with ts := t2 } now := rfl

/-! ## C4: the silent debounce-window clamp -/

/-- C4 (confirmed). `RuntimeConfig.update_debounce` stores an in-range value
(boundaries 0.1 and 2.0 included) and silently ignores an out-of-range one:
the configuration — in particular the stored window — is returned unchanged,
no error is raised (the function is total), and nothing is reported back. -/
theorem debounce_window_clamp (c : RuntimeConfig) (v : ℚ) :
    ((1/10 ≤ v ∧ v ≤ 2) →
      c.update_debounce v = { c with debounce_sec := v }) ∧
    (¬(1/10 ≤ v ∧ v ≤ 2) → c.update_debounce v = c) := by
  constructor
  · intro h
    unfold RuntimeConfig.update_debounce
    rw [if_pos h]
  · intro h
    unfold RuntimeConfig.update_debounce
    rw [if_neg h]

/-- Closed instances of C4: an in-range update (1.5) is stored, including the
boundaries 0.1 and 2.0, and an out-of-range one (5) is dropped. -/
theorem debounce_window_clamp_witness :
    RuntimeConfig.init.update_debounce (3/2)
      = { RuntimeConfig.init with debounce_sec := 3/2 } ∧
    RuntimeConfig.init.update_debounce (1/10)
      = { RuntimeConfig.init with debounce_sec := 1/10 } ∧
    RuntimeConfig.init.update_debounce 2
      = { RuntimeConfig.init with debounce_sec := 2 } ∧
    RuntimeConfig.init.update_debounce 5 = RuntimeConfig.init :=
  ⟨(debounce_window_clamp RuntimeConfig.init (3/2)).1 (by norm_num),
   (debounce_window_clamp RuntimeConfig.init (1/10)).1 (by norm_num),
   (debounce_window_clamp RuntimeConfig.init 2).1 (by norm_num),
   (debounce_window_clamp RuntimeConfig.init 5).2 (by norm_num)⟩

/-! ## C5: the mode state machine -/

/-- One `update_mode` step never takes a non-IDLE mode back to IDLE. -/
lemma update_mode_ne_idle (st : AppState) (c : String) (h : st.mode ≠ "IDLE") :
    (st.update_mode c).mode ≠ "IDLE" := by
  unfold AppState.update_mode
  by_cases h1 : c = "START"
  · rw [if_pos h1]
    show ("RUNNING" : String) ≠ "IDLE"
    decide
  · rw [if_neg h1]
    by_cases h2 : c = "STOP"
    · rw [if_pos h2]
      show ("STOPPED" : String) ≠ "IDLE"
      decide
    · rw [if_neg h2]
      exact h

/-- Folding commands never takes a non-IDLE mode back to IDLE. -/
lemma applyCommands_ne_idle (cmds : List String) :
    ∀ st : AppState, st.mode ≠ "IDLE" → (applyCommands st cmds).mode ≠ "IDLE" := by
  induction cmds with
  | nil => intro st h; exact h
  | cons c rest ih =>
    intro st h
    exact ih (st.update_mode c) (update_mode_ne_idle st c h)

/-- C5 (confirmed). The mode transition is a total function (it is a Lean
`def`, hence terminating on every (mode, command) pair): `START` yields
`RUNNING` and `STOP` yields `STOPPED` regardless of the prior mode, any other
command leaves the mode unchanged, the three modes are closed under
transition, and once the mode has left `IDLE` no sequence of commands ever
returns it to `IDLE`. -/
theorem mode_transition_rules (st : AppState) (c : String) (cmds : List String) :
    (c = "START" → (st.update_mode c).mode = "RUNNING") ∧
    (c = "STOP" → (st.update_mode c).mode = "STOPPED") ∧
    (c ≠ "START" → c ≠ "STOP" → (st.update_mode c).mode = st.mode) ∧
    ((st.mode = "IDLE" ∨ st.mode = "RUNNING" ∨ st.mode = "STOPPED") →
      ((st.update_mode c).mode = "IDLE" ∨ (st.update_mode c).mode = "RUNNING" ∨
        (st.update_mode c).mode = "STOPPED")) ∧
    (st.mode ≠ "IDLE" → (applyCommands st cmds).mode ≠ "IDLE") := by
  refine ⟨?_, ?_, ?_, ?_, applyCommands_ne_idle cmds st⟩
  · intro h
    unfold AppState.update_mode
    rw [if_pos h]
  · intro h
    unfold AppState.update_mode
    by_cases h1 : c = "START"
    · rw [h1] at h
      exact absurd h (by decide)
    · rw [if_neg h1, if_pos h]
  · intro h1 h2
    unfold AppState.update_mode
    rw [if_neg h1, if_neg h2]
  · intro hm
    unfold AppState.update_mode
    by_cases h1 : c = "START"
    · rw [if_pos h1]
      right; left; rfl
    · rw [if_neg h1]
      by_cases h2 : c = "STOP"
      · rw [if_pos h2]
        right; right; rfl
      · rw [if_neg h2]
        exact hm

/-- Closed instances of C5 on concrete modes and command sequences, including
a run that leaves IDLE and never returns. -/
theorem mode_transition_rules_witness :
    ((AppState.init 0).update_mode "START").mode = "RUNNING" ∧
    (exState2.update_mode "STOP").mode = "STOPPED" ∧
    ((AppState.init 0).update_mode "RESET").mode = (AppState.init 0).mode ∧
    (applyCommands exState2 ["NO_GESTURE", "STOP", "VICTORY"]).mode ≠ "IDLE" :=
  ⟨(mode_transition_rules (AppState.init 0) "START" []).1 rfl,
   (mode_transition_rules exState2 "STOP" []).2.1 rfl,
   (mode_transition_rules (AppState.init 0) "RESET" []).2.2.1 (by decide) (by decide),
   (mode_transition_rules exState2 "X" ["NO_GESTURE", "STOP", "VICTORY"]).2.2.2.2
     (by decide)⟩

/-! ## C8: the is_correct flag of logged rows -/

/-- Every log row handed to the background writer by the ingestion endpoint
has `is_correct = 1` (the handler passes the literal 1). -/
lemma postGesture_logWrite_is_correct (cfg : RuntimeConfig) (st : AppState)
    (ev : GestureEvent) (now : ℚ) (row : LogRow)
    (h : (postGesture cfg st ev now).logWrite = some row) : row.is_correct = 1 := by
  unfold postGesture at h
  by_cases hc : st.last_trigger_gesture = some (normalizeGesture ev.gesture) ∧
      now - st.last_trigger_t < cfg.debounce_sec
  · rw [if_pos hc] at h
    exact absurd h (by simp)
  · rw [if_neg hc] at h
    have hr := Option.some.inj h
    rw [← hr]

/-- C8 (counterexample). The claim says the caller can cause a row with
`is_correct = 0` to be written. No ingested event can: the event payload has
no such field and the handler writes the literal 1, so no reachable log write
ever carries `is_correct = 0`. -/
theorem is_correct_counterexample :
    ¬ ∃ (cfg : RuntimeConfig) (st : AppState) (ev : GestureEvent) (now : ℚ)
        (row : LogRow),
        (postGesture cfg st ev now).logWrite = some row ∧ row.is_correct = 0 := by
  rintro ⟨cfg, st, ev, now, row, hw, h0⟩
  rw [postGesture_logWrite_is_correct cfg st ev now row hw] at h0
  exact absurd h0 (by decide)

/-- C8 (amended, proved). `is_correct` is not caller-supplied: the ingestion
payload has no such field, and every row the ingestion endpoint writes has
`is_correct = 1` (the hard-coded default), for every event. -/
theorem is_correct_always_one (cfg : RuntimeConfig) (st : AppState)
    (ev : GestureEvent) (now : ℚ) (row : LogRow)
    (h : (postGesture cfg st ev now).logWrite = some row) : row.is_correct = 1 :=
  postGesture_logWrite_is_correct cfg st ev now row h

/-- A fresh PALM event with integral fields, for concrete evaluation. -/
def exEvent8 : GestureEvent :=
  { gesture := "PALM", score := 1, ts := none, session_id := none,
    response_time := none }

/-- Closed instance of the C8 amended theorem: the concrete row written for a
fresh PALM event has `is_correct = 1`. -/
theorem is_correct_always_one_witness :
    ({ time := 5, gesture := "PALM", command := "OPEN_HAND", score := 1,
       response_time := 0, session_id := "default", is_correct := 1 } : LogRow).is_correct
      = 1 :=
  is_correct_always_one RuntimeConfig.init (AppState.init 0) exEvent8 5 _ (by decide)

/-! ## C10: empty gesture label, the UNKNOWN key and the NONE sentinel -/

/-- A successful association-list lookup comes from a member pair. -/
lemma lookup_mem (l : List (String × String)) (k v : String)
    (h : l.lookup k = some v) : (k, v) ∈ l := by
  induction l with
  | nil => exact absurd h (by simp)
  | cons p rest ih =>
    rw [List.lookup] at h
    cases hb : k == p.1 with
    | false =>
      rw [hb] at h
      rw [List.mem_cons]
      right
      exact ih h
    | true =>
      rw [hb] at h
      have hk := beq_iff_eq.mp hb
      have hv := Option.some.inj h
      rw [List.mem_cons]
      left
      rw [hk, ← hv]

/-- C10 (confirmed). Under the default gesture mapping, an event with an
empty gesture label is normalized to "UNKNOWN", which is itself a mapped key,
so the resolved command is "NO_GESTURE" — not the unmapped sentinel "NONE";
and the "NONE" sentinel is resolved exactly for normalized gestures absent
from the default mapping table. -/
theorem empty_gesture_resolution :
    (normalizeGesture "" = "UNKNOWN") ∧
    (∀ (st : AppState) (ev : GestureEvent) (now : ℚ), ev.gesture = "" →
      (postGesture RuntimeConfig.init st ev now).command = "NO_GESTURE") ∧
    (∀ g : String,
      dictGet default_gesture_mapping g "NONE" = "NONE" ↔
        default_gesture_mapping.lookup g = none) := by
  refine ⟨by decide, ?_, ?_⟩
  · intro st ev now hg
    rw [postGesture_command, hg]
    decide
  · intro g
    rcases h : default_gesture_mapping.lookup g with _ | v
    · unfold dictGet
      rw [h]
      simp
    · have hv : v ≠ "NONE" := by
        have hm := lookup_mem default_gesture_mapping g v h
        simp only [default_gesture_mapping, List.mem_cons, List.not_mem_nil,
          or_false, Prod.mk.injEq] at hm
        rcases hm with h1 | h1 | h1 | h1 | h1 | h1 | h1 | h1 <;>
          rw [h1.2] <;> decide
      unfold dictGet
      rw [h]
      constructor
      · intro hvv
        exact absurd hvv hv
      · intro hvv
        exact absurd hvv (by simp)

/-- Closed instances of C10: the empty label resolves to "NO_GESTURE", and an
unmapped label ("WAVE") resolves to "NONE" exactly because it is absent. -/
theorem empty_gesture_resolution_witness :
    (postGesture RuntimeConfig.init (AppState.init 0)
        { gesture := "", score := 1, ts := none, session_id := none,
          response_time := none } 7).command = "NO_GESTURE" ∧
    (dictGet default_gesture_mapping "WAVE" "NONE" = "NONE" ↔
      default_gesture_mapping.lookup "WAVE" = none) :=
  ⟨empty_gesture_resolution.2.1 (AppState.init 0)
      { gesture := "", score := 1, ts := none, session_id := none,
        response_time := none } 7 rfl,
   empty_gesture_resolution.2.2 "WAVE"⟩

/-! ## main.py analytics endpoints

The endpoints are read-only queries over the `logs` table, modelled as a
`List LogRow`. SQL `GROUP BY` is modelled as iteration over the distinct key
values; `ORDER BY c DESC` as an insertion sort on the count key (the sort is
presentation order only). The `datetime` display strings of the responses are
not modelled. -/

/-- The distinct gesture values of the log (the `GROUP BY gesture` keys). -/
def distinctGestures (logs : List LogRow) : List String :=
  (logs.map (fun r => r.gesture)).dedup

/-- The rows of one gesture group. -/
def gestureRows (logs : List LogRow) (g : String) : List LogRow :=
  logs.filter (fun r => r.gesture = g)

/-- Insertion into a count-descending list (`ORDER BY count DESC`). -/
def insertDescBy {α : Type} (key : α → ℕ) (a : α) : List α → List α
  | [] => [a]
  | b :: rest => if key b < key a then a :: b :: rest else b :: insertDescBy key a rest

/-- Sort by a numeric key, descending (`ORDER BY count DESC`). -/
def sortDescBy {α : Type} (key : α → ℕ) : List α → List α
  | [] => []
  | a :: rest => insertDescBy key a (sortDescBy key rest)

/-- The summary payload of `GET /api/analytics/summary`. -/
structure SummaryResult where
  total_recognitions : ℕ
  today_recognitions : ℕ
  week_recognitions : ℕ
  overall_accuracy : ℚ
  avg_response_time : ℚ
  avg_confidence : ℚ
  unknown_rate : ℚ
  top_gestures : List (String × ℕ)
deriving Repr, DecidableEq

/-- The summary's mean response time before its final 2-decimal rounding:
`AVG(response_time)` over rows `WHERE response_time > 0`, with the Python
falsy guard mapping a NULL (empty selection) result to 0.0. -/
def summaryAvgResponseRaw (logs : List LogRow) : ℚ :=
  pyFalsyFloat (listAvg ((logs.filter (fun r => 0 < r.response_time)).map
    (fun r => r.response_time)))

/-- `get_analytics_summary` from src/backend/main.py, at wall-clock `now`. -/
def summaryOf (now : ℚ) (logs : List LogRow) : SummaryResult :=
  let nonUnknown := logs.filter (fun r => r.gesture ≠ "UNKNOWN")
  { total_recognitions := logs.length
    today_recognitions := (logs.filter (fun r => now - 86400 < r.time)).length
    week_recognitions := (logs.filter (fun r => now - 86400 * 7 < r.time)).length
    overall_accuracy :=
      round2 (pyFalsyFloat (listAvg (logs.map (fun r => (r.is_correct : ℚ)))) * 100)
    avg_response_time := round2 (summaryAvgResponseRaw logs)
    avg_confidence := round2 (pyFalsyFloat (listAvg (logs.map (fun r => r.score))) * 100)
    unknown_rate :=
      round2 (if 0 < logs.length then
        ((gestureRows logs "UNKNOWN").length : ℚ) / logs.length * 100 else 0)
    top_gestures :=
      (sortDescBy (fun p => p.2)
        ((distinctGestures nonUnknown).map
          (fun g => (g, (gestureRows nonUnknown g).length)))).take 3 }

/-- One record of `GET /api/analytics/gestures`. -/
structure GestureStats where
  gesture : String
  count : ℕ
  accuracy : ℚ
  avg_confidence : ℚ
  avg_response_time : ℚ
  min_response_time : ℚ
  max_response_time : ℚ
  percentage : ℚ
deriving Repr, DecidableEq

/-- The per-gesture mean response time before its final 2-decimal rounding:
`AVG(response_time)` over all rows of the gesture group — no positivity
filter — with the Python falsy guard. -/
def gestureAvgResponseRaw (logs : List LogRow) (g : String) : ℚ :=
  pyFalsyFloat (listAvg ((gestureRows logs g).map (fun r => r.response_time)))

/-- The record computed for one gesture group by `get_gesture_analytics`;
`totalAll` is the sum of all group counts (= the number of rows). -/
def gestureStatsOf (logs : List LogRow) (totalAll : ℕ) (g : String) : GestureStats :=
  let rows := gestureRows logs g
  { gesture := g
    count := rows.length
    accuracy :=
      round2 (pyFalsyFloat (listAvg (rows.map (fun r => (r.is_correct : ℚ)))) * 100)
    avg_confidence := round2 (pyFalsyFloat (listAvg (rows.map (fun r => r.score))) * 100)
    avg_response_time := round2 (gestureAvgResponseRaw logs g)
    min_response_time := round2 (pyFalsyFloat (listMin (rows.map (fun r => r.response_time))))
    max_response_time := round2 (pyFalsyFloat (listMax (rows.map (fun r => r.response_time))))
    percentage :=
      if 0 < totalAll then round2 ((rows.length : ℚ) / totalAll * 100) else 0 }

/-- `get_gesture_analytics` from src/backend/main.py: one record per distinct
gesture, ordered by count descending. -/
def gestureAnalyticsOf (logs : List LogRow) : List GestureStats :=
  sortDescBy (fun s => s.count)
    ((distinctGestures logs).map (gestureStatsOf logs logs.length))

/-- One entry of `GET /api/analytics/timeline` (a non-empty hourly bucket).
`timestamp` is the bucket start, truncated to an integer as Python's `int()`
does; the human-readable `datetime` string is not modelled. -/
structure TimelineEntry where
  bucket : ℤ
  timestamp : ℤ
  count : ℕ
  avg_confidence : ℚ
  avg_response_time : ℚ
deriving Repr, DecidableEq

/-- The payload of `GET /api/analytics/timeline`. -/
structure TimelineResult where
  timeline : List TimelineEntry
  hours : ℤ
  start_time : ℚ
  end_time : ℚ
deriving Repr, DecidableEq

/-- The SQL bucket expression `CAST((time - start) / 3600 AS INTEGER)`. -/
def timelineBucket (start t : ℚ) : ℤ := intTrunc ((t - start) / 3600)

/-- The rows selected by `WHERE time >= start AND time <= stop`. -/
def windowRows (logs : List LogRow) (start stop : ℚ) : List LogRow :=
  logs.filter (fun r => start ≤ r.time ∧ r.time ≤ stop)

/-- Insertion into an ascending list of bucket indices (`ORDER BY hour_bucket`). -/
def insertAsc (a : ℤ) : List ℤ → List ℤ
  | [] => [a]
  | b :: rest => if a ≤ b then a :: b :: rest else b :: insertAsc a rest

/-- Ascending sort of bucket indices (`ORDER BY hour_bucket`). -/
def sortAsc : List ℤ → List ℤ
  | [] => []
  | a :: rest => insertAsc a (sortAsc rest)

/-- `get_timeline_analytics` from src/backend/main.py, at wall-clock `now`:
clamp the hour window to [1, 168], select the rows of the window, group them
by the hour-bucket expression (only buckets that own at least one row exist
as groups), and report per bucket the count, mean confidence, mean response
time and bucket start. -/
def timelineOf (logs : List LogRow) (now : ℚ) (hours : ℤ) : TimelineResult :=
  let h := max 1 (min 168 hours)
  let start := now - (h : ℚ) * 3600
  let rows := windowRows logs start now
  let buckets := sortAsc ((rows.map (fun r => timelineBucket start r.time)).dedup)
  { timeline := buckets.map (fun b =>
      let brows := rows.filter (fun r => timelineBucket start r.time = b)
      { bucket := b
        timestamp := intTrunc (start + (b : ℚ) * 3600)
        count := brows.length
        avg_confidence := round2 (pyFalsyFloat (listAvg (brows.map (fun r => r.score))) * 100)
        avg_response_time := round2 (pyFalsyFloat (listAvg (brows.map (fun r => r.response_time)))) })
    hours := h, start_time := start, end_time := now }

/-! ## Rounding lemmas -/

@[simp]
lemma roundHalfEven_zero : roundHalfEven 0 = 0 := by
  unfold roundHalfEven
  norm_num

@[simp]
lemma round2_zero : round2 0 = 0 := by
  unfold round2
  norm_num

lemma roundHalfEven_int (n : ℤ) : roundHalfEven (n : ℚ) = n := by
  unfold roundHalfEven
  rw [Int.floor_intCast]
  norm_num

lemma round2_int (n : ℤ) : round2 (n : ℚ) = (n : ℚ) := by
  unfold round2
  have h : (100 : ℚ) * (n : ℚ) = ((100 * n : ℤ) : ℚ) := by push_cast; ring
  rw [h, roundHalfEven_int]
  push_cast
  ring

/-! ## C6: zero-denominator safety of the analytics -/

/-- C6 (confirmed). Over the empty log the summary's accuracy, mean response
time, mean confidence and unknown rate are all 0.0 (and its total is 0); and
the guarded ratios of the per-gesture endpoint yield 0.0 whenever their
denominator is zero: the percentage share when the total row count is 0, and
the per-group accuracy / confidence / response-time means when the group has
no rows (the endpoint over an empty log emits no records at all). All these
are total functions — no error or undefined value is produced. -/
theorem zero_denominator_safety :
    (∀ now : ℚ,
      (summaryOf now []).total_recognitions = 0 ∧
      (summaryOf now []).overall_accuracy = 0 ∧
      (summaryOf now []).avg_response_time = 0 ∧
      (summaryOf now []).avg_confidence = 0 ∧
      (summaryOf now []).unknown_rate = 0) ∧
    (∀ (logs : List LogRow) (g : String), (gestureStatsOf logs 0 g).percentage = 0) ∧
    (∀ (n : ℕ) (g : String),
      (gestureStatsOf [] n g).accuracy = 0 ∧
      (gestureStatsOf [] n g).avg_confidence = 0 ∧
      (gestureStatsOf [] n g).avg_response_time = 0) ∧
    gestureAnalyticsOf [] = [] := by
  refine ⟨?_, ?_, ?_, ?_⟩
  · intro now
    refine ⟨rfl, ?_, ?_, ?_, ?_⟩ <;>
      simp [summaryOf, summaryAvgResponseRaw, gestureRows, listAvg, pyFalsyFloat]
  · intro logs g
    simp [gestureStatsOf]
  · intro n g
    refine ⟨?_, ?_, ?_⟩ <;>
      simp [gestureStatsOf, gestureAvgResponseRaw, gestureRows, listAvg, pyFalsyFloat]
  · simp [gestureAnalyticsOf, distinctGestures, sortDescBy]

/-! ## C9: divergent response-time filtering between endpoints -/

/-- Dropping the non-positive response times never decreases the sum. -/
lemma sum_le_sum_filter_pos (l : List LogRow) :
    (l.map (fun r => r.response_time)).sum ≤
      ((l.filter (fun r => 0 < r.response_time)).map (fun r => r.response_time)).sum := by
  induction l with
  | nil => simp
  | cons r rest ih =>
    by_cases h : 0 < r.response_time
    · simp only [List.map_cons, List.sum_cons, List.filter_cons, decide_eq_true h,
        if_pos]
      exact add_le_add_left ih r.response_time
    · have h0 : r.response_time ≤ 0 := le_of_not_lt h
      simp only [List.map_cons, List.sum_cons, List.filter_cons,
        decide_eq_false h, Bool.false_eq_true, if_neg, not_false_iff]
      calc r.response_time + (rest.map (fun r => r.response_time)).sum
          ≤ (rest.map (fun r => r.response_time)).sum := by linarith
        _ ≤ _ := ih

/-- The log used to refute C9: gesture G has rows with response times 0 and
100; gesture H has rows with 30 and 20. -/
def exLog9 : List LogRow :=
  [{ time := 10, gesture := "G", command := "X", score := 1, response_time := 0,
     session_id := "default", is_correct := 1 },
   { time := 11, gesture := "G", command := "X", score := 1, response_time := 100,
     session_id := "default", is_correct := 1 },
   { time := 12, gesture := "H", command := "Y", score := 1, response_time := 30,
     session_id := "default", is_correct := 1 },
   { time := 13, gesture := "H", command := "Y", score := 1, response_time := 20,
     session_id := "default", is_correct := 1 }]

/-- C9 (counterexample). The claim's universal consequence — that for every
log containing a zero and a positive response time for the same gesture the
two endpoints report different mean response times — is false once other
gestures' rows enter the summary's global mean: on `exLog9`, gesture G has a
zero row and a positive row, yet the summary reports (100+30+20)/3 = 50 and
the per-gesture record for G reports (0+100)/2 = 50: the same value. -/
theorem response_time_filter_counterexample :
    (∃ r ∈ exLog9, r.gesture = "G" ∧ r.response_time = 0) ∧
    (∃ r ∈ exLog9, r.gesture = "G" ∧ 0 < r.response_time) ∧
    (summaryOf 100 exLog9).avg_response_time = 50 ∧
    (gestureStatsOf exLog9 exLog9.length "G").avg_response_time = 50 := by
  have h50 : round2 (50 : ℚ) = 50 := by
    have h := round2_int 50
    push_cast at h
    exact h
  refine ⟨?_, ?_, ?_, ?_⟩
  · exact ⟨{ time := 10, gesture := "G", command := "X", score := 1,
             response_time := 0, session_id := "default", is_correct := 1 },
           by simp [exLog9], rfl, rfl⟩
  · exact ⟨{ time := 11, gesture := "G", command := "X", score := 1,
             response_time := 100, session_id := "default", is_correct := 1 },
           by simp [exLog9], rfl, by norm_num⟩
  · show round2 (summaryAvgResponseRaw exLog9) = 50
    have hraw : summaryAvgResponseRaw exLog9 = 50 := by
      unfold summaryAvgResponseRaw exLog9
      norm_num [List.filter, listAvg, pyFalsyFloat]
    rw [hraw, h50]
  · show round2 (gestureAvgResponseRaw exLog9 "G") = 50
    have hrowsG : gestureRows exLog9 "G" =
        [{ time := 10, gesture := "G", command := "X", score := 1, response_time := 0,
           session_id := "default", is_correct := 1 },
         { time := 11, gesture := "G", command := "X", score := 1, response_time := 100,
           session_id := "default", is_correct := 1 }] := by
      decide
    have hraw : gestureAvgResponseRaw exLog9 "G" = 50 := by
      unfold gestureAvgResponseRaw
      rw [hrowsG]
      norm_num [listAvg, pyFalsyFloat]
    rw [hraw, h50]

/-- C9 (amended, proved). The summary computes its mean response time only
over rows with `response_time > 0` (prepending a zero-response-time row never
changes it), while the per-gesture breakdown averages over all rows of the
gesture; consequently, for every log whose rows all belong to one gesture and
which contains at least one zero-response-time row and at least one positive
one, the two endpoints' mean response times (before the final 2-decimal
display rounding) differ. -/
theorem response_time_filter_divergence (logs : List LogRow) (g : String)
    (hall : ∀ r ∈ logs, r.gesture = g)
    (hzero : ∃ r ∈ logs, r.response_time = 0)
    (hpos : ∃ r ∈ logs, 0 < r.response_time) :
    (∀ (r0 : LogRow) (l : List LogRow), r0.response_time = 0 →
      summaryAvgResponseRaw (r0 :: l) = summaryAvgResponseRaw l) ∧
    summaryAvgResponseRaw logs ≠ gestureAvgResponseRaw logs g := by
  constructor
  · intro r0 l hr0
    unfold summaryAvgResponseRaw
    have : (0 < r0.response_time) = False := by
      rw [hr0]
      simp
    simp [List.filter_cons, this]
  · obtain ⟨rz, hrz, hrz0⟩ := hzero
    obtain ⟨rp, hrp, hrp0⟩ := hpos
    have hrows : gestureRows logs g = logs := by
      unfold gestureRows
      rw [List.filter_eq_self]
      intro a ha
      simpa using hall a ha
    set pos := logs.filter (fun r => 0 < r.response_time) with hposdef
    have hpos_mem : rp ∈ pos := List.mem_filter.mpr ⟨hrp, by simpa using hrp0⟩
    have hpos_ne : pos ≠ [] := List.ne_nil_of_mem hpos_mem
    have hlogs_ne : logs ≠ [] := List.ne_nil_of_mem hrz
    set Spos := (pos.map (fun r => r.response_time)).sum with hSposdef
    set Sall := (logs.map (fun r => r.response_time)).sum with hSalldef
    have hS : Sall ≤ Spos := sum_le_sum_filter_pos logs
    have hSpos : 0 < Spos := by
      apply List.sum_pos
      · intro x hx
        obtain ⟨r, hr, hrx⟩ := List.mem_map.mp hx
        rw [← hrx]
        have := (List.mem_filter.mp hr).2
        simpa using this
      · simpa using hpos_ne
    have hnpos : 0 < pos.length := List.length_pos.mpr hpos_ne
    have hlt : pos.length < logs.length := by
      rw [hposdef, List.length_filter_lt_length_iff_exists]
      exact ⟨rz, hrz, by simp [hrz0]⟩
    have hnposQ : (0 : ℚ) < pos.length := by exact_mod_cast hnpos
    have hnallQ : (0 : ℚ) < logs.length := by
      have : 0 < logs.length := lt_of_le_of_lt (Nat.zero_le _) hlt
      exact_mod_cast this
    have hltQ : ((pos.length : ℚ)) < logs.length := by exact_mod_cast hlt
    have hval1 : summaryAvgResponseRaw logs = Spos / (pos.length : ℚ) := by
      unfold summaryAvgResponseRaw
      rw [← hposdef]
      unfold listAvg
      rw [if_neg (by simp [hpos_ne] :
        ¬((pos.map (fun r => r.response_time)).isEmpty = true))]
      simp only [List.length_map]
      rw [← hSposdef]
      simp only [pyFalsyFloat]
      have hq : (0 : ℚ) < Spos / pos.length := div_pos hSpos hnposQ
      rw [if_neg (ne_of_gt hq)]
    have hval2 : gestureAvgResponseRaw logs g =
        (if Sall / (logs.length : ℚ) = 0 then 0 else Sall / (logs.length : ℚ)) := by
      unfold gestureAvgResponseRaw
      rw [hrows]
      unfold listAvg
      rw [if_neg (by simp [hlogs_ne] :
        ¬((logs.map (fun r => r.response_time)).isEmpty = true))]
      simp only [List.length_map]
      rw [← hSalldef]
      simp only [pyFalsyFloat]
    have hchain : Sall / (logs.length : ℚ) < Spos / pos.length := by
      calc Sall / (logs.length : ℚ) ≤ Spos / (logs.length : ℚ) :=
            (div_le_div_iff_of_pos_right hnallQ).mpr hS
        _ < Spos / pos.length := div_lt_div_of_pos_left hSpos hnposQ hltQ
    rw [hval1, hval2]
    by_cases hz : Sall / (logs.length : ℚ) = 0
    · rw [if_pos hz]
      exact ne_of_gt (div_pos hSpos hnposQ)
    · rw [if_neg hz]
      exact ne_of_gt hchain

/-- A single-gesture log with a zero and a positive response time. -/
def exLog9b : List LogRow :=
  [{ time := 10, gesture := "G", command := "X", score := 1, response_time := 0,
     session_id := "default", is_correct := 1 },
   { time := 11, gesture := "G", command := "X", score := 1, response_time := 100,
     session_id := "default", is_correct := 1 }]

/-- Closed instance of the C9 amended theorem: on the single-gesture log
`exLog9b` the summary's zero-filtered mean (100) differs from the per-gesture
all-rows mean (50). -/
theorem response_time_filter_divergence_witness :
    summaryAvgResponseRaw exLog9b ≠ gestureAvgResponseRaw exLog9b "G" :=
  (response_time_filter_divergence exLog9b "G" (by decide)
    ⟨{ time := 10, gesture := "G", command := "X", score := 1, response_time := 0,
       session_id := "default", is_correct := 1 }, by simp [exLog9b], rfl⟩
    ⟨{ time := 11, gesture := "G", command := "X", score := 1, response_time := 100,
       session_id := "default", is_correct := 1 }, by simp [exLog9b], by norm_num⟩).2

/-! ## C7: timeline clamping, bucketing and sparsity -/

lemma mem_insertAsc (a x : ℤ) (l : List ℤ) :
    x ∈ insertAsc a l ↔ x = a ∨ x ∈ l := by
  induction l with
  | nil => simp [insertAsc]
  | cons b rest ih =>
    unfold insertAsc
    by_cases hab : a ≤ b
    · rw [if_pos hab]
      simp [List.mem_cons]
    · rw [if_neg hab]
      simp only [List.mem_cons, ih]
      tauto

lemma length_insertAsc (a : ℤ) (l : List ℤ) :
    (insertAsc a l).length = l.length + 1 := by
  induction l with
  | nil => rfl
  | cons b rest ih =>
    unfold insertAsc
    by_cases hab : a ≤ b
    · rw [if_pos hab]
      rfl
    · rw [if_neg hab]
      simp [ih]

lemma mem_sortAsc (x : ℤ) (l : List ℤ) : x ∈ sortAsc l ↔ x ∈ l := by
  induction l with
  | nil => simp [sortAsc]
  | cons b rest ih =>
    unfold sortAsc
    rw [mem_insertAsc]
    simp [ih]

lemma length_sortAsc (l : List ℤ) : (sortAsc l).length = l.length := by
  induction l with
  | nil => rfl
  | cons b rest ih =>
    unfold sortAsc
    rw [length_insertAsc, ih]
    rfl

/-- On nonnegative arguments, SQLite integer truncation is the floor. -/
lemma intTrunc_of_nonneg (q : ℚ) (h : 0 ≤ q) : intTrunc q = ⌊q⌋ := by
  unfold intTrunc
  rw [if_pos h]

/-- A log with one event at hour 0 and one at hour 3 of a 5-hour window
ending at `now = 18000`. -/
def exLog7 : List LogRow :=
  [{ time := 0, gesture := "PALM", command := "OPEN_HAND", score := 1,
     response_time := 10, session_id := "default", is_correct := 1 },
   { time := 10800, gesture := "FIST", command := "CLOSED_HAND", score := 1,
     response_time := 20, session_id := "default", is_correct := 1 }]

/-- C7 (confirmed). For every requested hour window: the effective window is
clamped to [1, 168] (and equals the request inside that range); every log row
inside `[now - h*3600, now]` is assigned the bucket `⌊(time - start)/3600⌋`
(the SQL `CAST ... AS INTEGER` truncation coincides with the floor on the
window); every emitted bucket is non-empty and reports the count, mean
confidence, mean response time and bucket start of exactly the window rows
assigned to it; the output has exactly one entry per distinct bucket value
among the window rows (zero-row buckets are omitted); and on the concrete
log `exLog7` (events only at hours 0 and 3 of a 5-hour window) exactly two
buckets are returned. -/
theorem timeline_bucketing (logs : List LogRow) (now : ℚ) (hours h : ℤ) (start : ℚ)
    (hh : h = (timelineOf logs now hours).hours)
    (hs : start = now - (h : ℚ) * 3600) :
    (1 ≤ h ∧ h ≤ 168 ∧ (1 ≤ hours → hours ≤ 168 → h = hours)) ∧
    (∀ r ∈ logs, start ≤ r.time → r.time ≤ now →
      timelineBucket start r.time = ⌊(r.time - start) / 3600⌋) ∧
    (∀ e ∈ (timelineOf logs now hours).timeline,
      0 < e.count ∧
      e.count = ((windowRows logs start now).filter
        (fun r => timelineBucket start r.time = e.bucket)).length ∧
      e.timestamp = intTrunc (start + (e.bucket : ℚ) * 3600) ∧
      e.avg_confidence = round2 (pyFalsyFloat (listAvg
        (((windowRows logs start now).filter
          (fun r => timelineBucket start r.time = e.bucket)).map
          (fun r => r.score))) * 100) ∧
      e.avg_response_time = round2 (pyFalsyFloat (listAvg
        (((windowRows logs start now).filter
          (fun r => timelineBucket start r.time = e.bucket)).map
          (fun r => r.response_time))))) ∧
    ((timelineOf logs now hours).timeline.length
      = ((windowRows logs start now).map
          (fun r => timelineBucket start r.time)).dedup.length) ∧
    (timelineOf exLog7 18000 5).timeline.length = 2 := by
  have hh2 : h = max 1 (min 168 hours) := hh
  subst hh2
  subst hs
  refine ⟨⟨le_max_left 1 _, max_le (by norm_num) (min_le_left 168 hours), ?_⟩,
    ?_, ?_, ?_, ?_⟩
  · intro h1 h168
    rw [min_eq_right h168, max_eq_right h1]
  · intro r _ h1 _
    unfold timelineBucket
    exact intTrunc_of_nonneg _ (div_nonneg (sub_nonneg.mpr h1) (by norm_num))
  · intro e he
    simp only [timelineOf] at he
    obtain ⟨b, hb, rfl⟩ := List.mem_map.mp he
    refine ⟨?_, rfl, rfl, rfl, rfl⟩
    have hb2 := (List.mem_dedup).mp ((mem_sortAsc b _).mp hb)
    obtain ⟨r, hr, hbr⟩ := List.mem_map.mp hb2
    have hrf : r ∈ (windowRows logs
        (now - ((max 1 (min 168 hours) : ℤ) : ℚ) * 3600) now).filter
        (fun r => timelineBucket
          (now - ((max 1 (min 168 hours) : ℤ) : ℚ) * 3600) r.time = b) :=
      List.mem_filter.mpr ⟨hr, decide_eq_true hbr⟩
    exact List.length_pos.mpr (List.ne_nil_of_mem hrf)
  · simp only [timelineOf, List.length_map, length_sortAsc]
  · have hclamp : max 1 (min 168 (5 : ℤ)) = 5 := by decide
    simp only [timelineOf, hclamp]
    have hstart : (18000 : ℚ) - ((5 : ℤ) : ℚ) * 3600 = 0 := by norm_num
    rw [hstart]
    have hw : windowRows exLog7 0 18000 = exLog7 := by
      unfold windowRows exLog7
      norm_num [List.filter]
    rw [hw]
    have hb0 : timelineBucket 0 (0 : ℚ) = 0 := by
      unfold timelineBucket intTrunc
      norm_num
    have hb3 : timelineBucket 0 (10800 : ℚ) = 3 := by
      unfold timelineBucket intTrunc
      rw [if_pos (by norm_num)]
      rw [show ((10800 : ℚ) - 0) / 3600 = ((3 : ℤ) : ℚ) by norm_num]
      exact Int.floor_intCast 3
    have hmap : exLog7.map (fun r => timelineBucket 0 r.time) = [0, 3] := by
      unfold exLog7
      simp only [List.map_cons, List.map_nil]
      rw [hb0, hb3]
    rw [hmap]
    decide

/-- Closed instance of C7 at the concrete 5-hour window: the timeline for
`exLog7` has exactly two entries — one per distinct non-empty hourly bucket
of the window rows. -/
theorem timeline_bucketing_witness :
    (timelineOf exLog7 18000 5).timeline.length = 2 ∧
    (timelineOf exLog7 18000 5).timeline.length
      = ((windowRows exLog7 0 18000).map
          (fun r => timelineBucket 0 r.time)).dedup.length :=
  ⟨(timeline_bucketing exLog7 18000 5 5 0 (by decide) (by norm_num)).2.2.2.2,
   (timeline_bucketing exLog7 18000 5 5 0 (by decide) (by norm_num)).2.2.2.1⟩

end GestureControl
